import Mathlib

/-!
# AuthenticationController (app/controllers/AuthenticationController.js)

A shallow embedding of the authentication controller: the `authorize`
middleware factory, the three request handlers `handleLogin`,
`handleRegister`, `handleGetUser`, and the helpers `createTokenFromUser`,
`decodeToken`, `encryptPassword`, `verifyPassword`.

The controller is a sequencing layer over injected collaborators
(`userModel`, `roleModel`, `bcrypt`, `jwt`).  The collaborators, the error
classes of `../errors` and the constant `JWT_SIGNATURE_KEY` are not part of
the controller file; they are parameters of the embedding (`Deps`).  Every
call to a collaborator, every `res.status(..).json(..)` and every `next(..)`
is appended to a chronological log, so that "exactly once", "never called"
and ordering statements are statements about that log.
-/

namespace AuthenticationController

/-! ## JavaScript values -/

/-- JavaScript values as far as the controller handles them: request bodies,
store records, token payloads.  Objects are ordered field lists. -/
inductive JSVal where
  | undefined : JSVal
  | null : JSVal
  | bool (b : Bool) : JSVal
  | num (n : Int) : JSVal
  | str (s : String) : JSVal
  | obj (fields : List (String × JSVal)) : JSVal

/-- A thrown value / rejected reason: an error object with the three fields
the controller ever reads (`err.name`, `err.message`, `err.details`).
`details` is `undefined` for an error that has none. -/
structure JSError where
  name : JSVal
  message : JSVal
  details : JSVal

/-- The `TypeError` raised by the language itself (member access on
`undefined`/`null`, calling a non-function). -/
def typeError (msg : String) : JSError :=
  { name := .str "TypeError", message := .str msg, details := .undefined }

/-- JavaScript `ToBoolean`. -/
def JSVal.truthy : JSVal → Bool
  | .undefined => false
  | .null => false
  | .bool b => b
  | .num n => n != 0
  | .str s => s != ""
  | .obj _ => true

/-- Is the value `undefined` or `null`? -/
def JSVal.isNullish : JSVal → Bool
  | .undefined => true
  | .null => true
  | _ => false

/-- The operator `a || b`. -/
def jsOr (a b : JSVal) : JSVal := if a.truthy then a else b

/-- The operator `a === b`.  Two objects are never identical here: the
controller only ever compares a role name with a freshly decoded payload
field. -/
def strictEq : JSVal → JSVal → Bool
  | .undefined, .undefined => true
  | .null, .null => true
  | .bool a, .bool b => a == b
  | .num a, .num b => a == b
  | .str a, .str b => a == b
  | _, _ => false

/-- Member access `v.key`: throws a `TypeError` on `undefined` and `null`,
yields `undefined` for an absent field and for primitives. -/
def getProp (v : JSVal) (key : String) : Except JSError JSVal :=
  match v with
  | .undefined =>
      .error (typeError ("Cannot read properties of undefined (reading '" ++ key ++ "')"))
  | .null =>
      .error (typeError ("Cannot read properties of null (reading '" ++ key ++ "')"))
  | .obj fields => .ok ((fields.lookup key).getD .undefined)
  | _ => .ok .undefined

/-- Optional member access `v?.key`: `undefined` on `undefined` and `null`. -/
def getPropOpt (v : JSVal) (key : String) : JSVal :=
  match v with
  | .obj fields => (fields.lookup key).getD .undefined
  | _ => .undefined

/-! ## `String.prototype.split` with a non-empty string separator -/

/-- First occurrence of `sep` in `s`: the text before it and the text after it. -/
def breakOn (sep : List Char) : List Char → Option (List Char × List Char)
  | [] => none
  | c :: cs =>
      if sep.isPrefixOf (c :: cs) then some ([], (c :: cs).drop sep.length)
      else (breakOn sep cs).map (fun p => (c :: p.1, p.2))

/-- Splitting driven by a step budget; each step consumes one occurrence. -/
def jsSplitFuel (sep : List Char) : Nat → List Char → List (List Char)
  | 0, s => [s]
  | n + 1, s =>
      match breakOn sep s with
      | none => [s]
      | some (a, b) => a :: jsSplitFuel sep n b

/-- The call `s.split(sep)` for a non-empty separator: the pieces between
successive non-overlapping occurrences of `sep`, scanning from the left.  An
occurrence consumes at least one character, so `s.length` steps suffice.
Text is a sequence of characters; the separator used by the controller is
ASCII, so matching by character and matching by UTF-16 code unit give the
same pieces. -/
def jsSplit (s sep : String) : List String :=
  (jsSplitFuel sep.data s.data.length s.data).map String.mk

/-- The characters of the separator `'Bearer '`. -/
def bearer : List Char := ['B', 'e', 'a', 'r', 'e', 'r', ' ']

/-- The expression `req.headers.authorization?.split('Bearer ')[1]`. -/
def extractToken (authorization : JSVal) : Except JSError JSVal :=
  match authorization with
  | .undefined => .ok .undefined
  | .null => .ok .undefined
  | .str h =>
      match (jsSplit h "Bearer ")[1]? with
      | some t => .ok (.str t)
      | none => .ok .undefined
  | _ => .error (typeError "req.headers.authorization?.split is not a function")

/-! ## Collaborators and observable effects -/

/-- The two persistence models the controller is constructed with. -/
inductive ModelRef where
  | userModel : ModelRef
  | roleModel : ModelRef

/-- One entry of a query's `include` list. -/
structure Include where
  model : ModelRef
  attributes : List String

/-- The options object passed to `findOne`. -/
structure FindOptions where
  whereClause : JSVal
  includes : List Include

/-- The argument of `res.json(..)`: a plain value or an error object. -/
inductive Body where
  | value (v : JSVal) : Body
  | error (e : JSError) : Body

/-- Everything the controller does to the outside world, in order. -/
inductive Event where
  | userFindOne (opts : FindOptions) : Event
  | userFindByPk (pk : JSVal) : Event
  | userCreate (values : JSVal) : Event
  | roleFindOne (opts : FindOptions) : Event
  | roleFindByPk (pk : JSVal) : Event
  | hashSync (data : JSVal) (rounds : Nat) : Event
  | compareSync (data : JSVal) (encrypted : JSVal) : Event
  | sign (payload : JSVal) (key : JSVal) : Event
  | verify (token : JSVal) (key : JSVal) : Event
  | respond (status : Nat) (body : Body) : Event
  | next (arg : Option JSError) : Event

/-- The injected collaborators (`userModel`, `roleModel`, `bcrypt`, `jwt`),
the error classes of `../errors`, the configured signing key and the string
built-in `toLowerCase`, over a credential store of type `σ`.  A collaborator
call either returns a value or throws / rejects with an error.  Lookups read
the store; only `create` may change it. -/
structure Deps (σ : Type) where
  userFindOne : FindOptions → σ → Except JSError JSVal
  userFindByPk : JSVal → σ → Except JSError JSVal
  userCreate : JSVal → σ → Except JSError JSVal × σ
  userModelName : JSVal
  roleFindOne : FindOptions → σ → Except JSError JSVal
  roleFindByPk : JSVal → σ → Except JSError JSVal
  roleModelName : JSVal
  hashSync : JSVal → Nat → Except JSError JSVal
  compareSync : JSVal → JSVal → Except JSError JSVal
  sign : JSVal → JSVal → Except JSError JSVal
  verify : JSVal → JSVal → Except JSError JSVal
  JWT_SIGNATURE_KEY : JSVal
  toLowerCase : String → String
  EmailNotRegisteredError : JSVal → JSError
  InsufficientAccessError : JSVal → JSError
  RecordNotFoundError : JSVal → JSError
  WrongPasswordError : JSError
  EmailAlreadyTakenError : JSVal → JSError

/-- The incoming request as the controller reads it:
`req.headers.authorization` and `req.body`. -/
structure Request where
  authorization : JSVal
  body : JSVal

/-- The mutable surroundings of one handler invocation: the credential store,
the log of effects so far, and `req.user`. -/
structure World (σ : Type) where
  store : σ
  log : List Event
  user : JSVal

/-- A computation that may change the world and either returns or throws;
the world changes made before a throw persist. -/
def Eff (σ α : Type) : Type := World σ → Except JSError α × World σ

namespace Eff

/-- Return a value without touching the world. -/
def ret {σ α : Type} (a : α) : Eff σ α := fun w => (.ok a, w)

/-- Sequencing; a throw skips the rest. -/
def andThen {σ α β : Type} (m : Eff σ α) (f : α → Eff σ β) : Eff σ β := fun w =>
  match m w with
  | (.ok a, w') => f a w'
  | (.error e, w') => (.error e, w')

/-- The statement `throw e`. -/
def raise {σ α : Type} (e : JSError) : Eff σ α := fun w => (.error e, w)

/-- The statement `try { body } catch (err) { handler }`. -/
def tryCatch {σ α : Type} (body : Eff σ α) (handler : JSError → Eff σ α) : Eff σ α := fun w =>
  match body w with
  | (.ok a, w') => (.ok a, w')
  | (.error e, w') => handler e w'

/-- Evaluate an expression that touches nothing but may throw. -/
def lift {σ α : Type} (x : Except JSError α) : Eff σ α := fun w => (x, w)

/-- Append one effect to the log. -/
def emit {σ : Type} (ev : Event) : Eff σ Unit := fun w =>
  (.ok (), { w with log := w.log ++ [ev] })

end Eff

instance (σ : Type) : Monad (Eff σ) where
  pure := Eff.ret
  bind := Eff.andThen

/-! ### The calls the controller makes -/

section Calls
variable {σ : Type}

/-- The call `await this.userModel.findOne(opts)`. -/
def userModel_findOne (d : Deps σ) (opts : FindOptions) : Eff σ JSVal := fun w =>
  (d.userFindOne opts w.store, { w with log := w.log ++ [.userFindOne opts] })

/-- The call `await this.userModel.findByPk(pk)`. -/
def userModel_findByPk (d : Deps σ) (pk : JSVal) : Eff σ JSVal := fun w =>
  (d.userFindByPk pk w.store, { w with log := w.log ++ [.userFindByPk pk] })

/-- The call `await this.userModel.create(values)`. -/
def userModel_create (d : Deps σ) (values : JSVal) : Eff σ JSVal := fun w =>
  ((d.userCreate values w.store).1,
    { w with store := (d.userCreate values w.store).2, log := w.log ++ [.userCreate values] })

/-- The call `await this.roleModel.findOne(opts)`. -/
def roleModel_findOne (d : Deps σ) (opts : FindOptions) : Eff σ JSVal := fun w =>
  (d.roleFindOne opts w.store, { w with log := w.log ++ [.roleFindOne opts] })

/-- The call `await this.roleModel.findByPk(pk)`. -/
def roleModel_findByPk (d : Deps σ) (pk : JSVal) : Eff σ JSVal := fun w =>
  (d.roleFindByPk pk w.store, { w with log := w.log ++ [.roleFindByPk pk] })

/-- The call `this.bcrypt.hashSync(data, rounds)`. -/
def bcrypt_hashSync (d : Deps σ) (data : JSVal) (rounds : Nat) : Eff σ JSVal := fun w =>
  (d.hashSync data rounds, { w with log := w.log ++ [.hashSync data rounds] })

/-- The call `this.bcrypt.compareSync(data, encrypted)`. -/
def bcrypt_compareSync (d : Deps σ) (data encrypted : JSVal) : Eff σ JSVal := fun w =>
  (d.compareSync data encrypted, { w with log := w.log ++ [.compareSync data encrypted] })

/-- The call `this.jwt.sign(payload, key)`. -/
def jwt_sign (d : Deps σ) (payload key : JSVal) : Eff σ JSVal := fun w =>
  (d.sign payload key, { w with log := w.log ++ [.sign payload key] })

/-- The call `this.jwt.verify(token, key)`. -/
def jwt_verify (d : Deps σ) (token key : JSVal) : Eff σ JSVal := fun w =>
  (d.verify token key, { w with log := w.log ++ [.verify token key] })

/-- The call `res.status(status).json(body)`.  Sending a response and calling
`next` are recorded in the log and return normally. -/
def respond (status : Nat) (body : Body) : Eff σ Unit := Eff.emit (.respond status body)

/-- The call `next()` (no argument) or `next(err)`. -/
def next (arg : Option JSError) : Eff σ Unit := Eff.emit (.next arg)

/-- The assignment `req.user = payload`. -/
def setReqUser (payload : JSVal) : Eff σ Unit := fun w => (.ok (), { w with user := payload })

/-- Reading `req.user`. -/
def getReqUser : Eff σ JSVal := fun w => (.ok w.user, w)

/-- The method call `v.toLowerCase()`: defined on strings only. -/
def callToLowerCase (d : Deps σ) (v : JSVal) : Except JSError JSVal :=
  match v with
  | .str s => .ok (.str (d.toLowerCase s))
  | .undefined =>
      .error (typeError "Cannot read properties of undefined (reading 'toLowerCase')")
  | .null =>
      .error (typeError "Cannot read properties of null (reading 'toLowerCase')")
  | _ => .error (typeError "req.body.email.toLowerCase is not a function")

/-- The destructuring `const { key } = v`. -/
def destructure (v : JSVal) (key : String) : Except JSError JSVal :=
  match v with
  | .undefined =>
      .error (typeError ("Cannot destructure property '" ++ key ++ "' of 'req.body' as it is undefined."))
  | .null =>
      .error (typeError ("Cannot destructure property '" ++ key ++ "' of 'req.body' as it is null."))
  | .obj fields => .ok ((fields.lookup key).getD .undefined)
  | _ => .ok .undefined

end Calls

/-! ## The controller -/

section Controller
variable {σ : Type}

/-- The field `accessControl.CUSTOMER`. -/
def accessControl_CUSTOMER : JSVal := .str "CUSTOMER"

/-- The method `decodeToken(token)` (lines 147-149). -/
def decodeToken (d : Deps σ) (token : JSVal) : Eff σ JSVal :=
  jwt_verify d token d.JWT_SIGNATURE_KEY

/-- The method `encryptPassword` (line 151). -/
def encryptPassword (d : Deps σ) (password : JSVal) : Eff σ JSVal :=
  bcrypt_hashSync d password 10

/-- The method `verifyPassword` (line 154). -/
def verifyPassword (d : Deps σ) (password encryptedPassword : JSVal) : Eff σ JSVal :=
  bcrypt_compareSync d password encryptedPassword

/-- The object literal of `createTokenFromUser` (lines 136-144), evaluated
field by field. -/
def tokenClaims (user role : JSVal) : Except JSError JSVal := do
  let id ← getProp user "id"
  let name ← getProp user "name"
  let email ← getProp user "email"
  let image ← getProp user "image"
  let roleId ← getProp role "id"
  let roleName ← getProp role "name"
  pure (.obj [("id", id), ("name", name), ("email", email), ("image", image),
    ("role", .obj [("id", roleId), ("name", roleName)])])

/-- The method `createTokenFromUser` (lines 136-145): the claims object is
built, then signed with the configured key. -/
def createTokenFromUser (d : Deps σ) (user role : JSVal) : Eff σ JSVal := do
  let claims ← Eff.lift (tokenClaims user role)
  jwt_sign d claims d.JWT_SIGNATURE_KEY

/-- The JSON body the middleware sends for a caught error (lines 39-45). -/
def authErrorBody (err : JSError) : Body :=
  .value (.obj [("error", .obj [("name", err.name), ("message", err.message),
    ("details", jsOr err.details .null)])])

/-- The middleware `authorize(rolename)` (lines 28-47). -/
def authorize (d : Deps σ) (rolename : JSVal) (req : Request) : Eff σ Unit :=
  Eff.tryCatch
    (do
      let token ← Eff.lift (extractToken req.authorization)
      let payload ← decodeToken d token
      if rolename.truthy then do
        let role ← Eff.lift (getProp payload "role")
        let name ← Eff.lift (getProp role "name")
        if !(strictEq rolename name) then
          Eff.raise (d.InsufficientAccessError (getPropOpt (getPropOpt payload "role") "name"))
      setReqUser payload
      next none)
    (fun err => respond 401 (authErrorBody err))

/-- The options literal of the lookup in `handleLogin` (lines 53-56). -/
def loginQuery (email : JSVal) : FindOptions :=
  { whereClause := .obj [("email", email)],
    includes := [{ model := .roleModel, attributes := ["id", "name"] }] }

/-- The options literal of the existence check in `handleRegister` (line 87). -/
def emailQuery (email : JSVal) : FindOptions :=
  { whereClause := .obj [("email", email)], includes := [] }

/-- The options literal of the role lookup in `handleRegister` (lines 95-97). -/
def customerRoleQuery : FindOptions :=
  { whereClause := .obj [("name", accessControl_CUSTOMER)], includes := [] }

/-- The handler `handleLogin` (lines 49-80). -/
def handleLogin (d : Deps σ) (req : Request) : Eff σ Unit :=
  Eff.tryCatch
    (do
      let rawEmail ← Eff.lift (getProp req.body "email")
      let email ← Eff.lift (callToLowerCase d rawEmail)
      let password ← Eff.lift (destructure req.body "password")
      let user ← userModel_findOne d (loginQuery email)
      if !user.truthy then
        respond 404 (.error (d.EmailNotRegisteredError email))
      else do
        let encryptedPassword ← Eff.lift (getProp user "encryptedPassword")
        let isPasswordCorrect ← verifyPassword d password encryptedPassword
        if !isPasswordCorrect.truthy then
          respond 401 (.error d.WrongPasswordError)
        else do
          let role ← Eff.lift (getProp user "Role")
          let accessToken ← createTokenFromUser d user role
          respond 201 (.value (.obj [("accessToken", accessToken)])))
    (fun err => next (some err))

/-- The handler `handleRegister` (lines 82-114).  In the `create` argument
the password is hashed before `role.id` is read, as in the object literal. -/
def handleRegister (d : Deps σ) (req : Request) : Eff σ Unit :=
  Eff.tryCatch
    (do
      let name ← Eff.lift (destructure req.body "name")
      let rawEmail ← Eff.lift (getProp req.body "email")
      let email ← Eff.lift (callToLowerCase d rawEmail)
      let password ← Eff.lift (destructure req.body "password")
      let existingUser ← userModel_findOne d (emailQuery email)
      if existingUser.truthy then
        respond 422 (.error (d.EmailAlreadyTakenError email))
      else do
        let role ← roleModel_findOne d customerRoleQuery
        let encryptedPassword ← encryptPassword d password
        let roleId ← Eff.lift (getProp role "id")
        let user ← userModel_create d
          (.obj [("name", name), ("email", email),
            ("encryptedPassword", encryptedPassword), ("roleId", roleId)])
        let accessToken ← createTokenFromUser d user role
        respond 201 (.value (.obj [("accessToken", accessToken)])))
    (fun err => next (some err))

/-- The handler `handleGetUser` (lines 116-134): no `try`, no `next`. -/
def handleGetUser (d : Deps σ) : Eff σ Unit := do
  let reqUser ← getReqUser
  let id ← Eff.lift (getProp reqUser "id")
  let user ← userModel_findByPk d id
  if !user.truthy then
    respond 404 (.error (d.RecordNotFoundError d.userModelName))
  else do
    let roleId ← Eff.lift (getProp user "roleId")
    let role ← roleModel_findByPk d roleId
    if !role.truthy then
      respond 404 (.error (d.RecordNotFoundError d.roleModelName))
    else
      respond 200 (.value user)

end Controller

/-! ## A concrete instance

An in-memory credential store, a toy hasher and a toy token codec.  They are
used only to evaluate the controller on concrete requests. -/

/-- An in-memory credential store: user rows and role rows. -/
structure MemStore where
  users : List JSVal
  roles : List JSVal

/-- Does `row` carry every field of the `where` clause? -/
def rowMatches (whereClause row : JSVal) : Bool :=
  match whereClause with
  | .obj fields => fields.all (fun kv => strictEq (getPropOpt row kv.1) kv.2)
  | _ => true

/-- First matching row, or `null`. -/
def findRow (whereClause : JSVal) (rows : List JSVal) : JSVal :=
  (rows.find? (rowMatches whereClause)).getD .null

/-- Attach the joined `Role` record to a user row. -/
def withRole (roles : List JSVal) (user : JSVal) : JSVal :=
  match user with
  | .obj fields =>
      .obj (fields ++ [("Role", findRow (.obj [("id", getPropOpt user "roleId")]) roles)])
  | v => v

/-- ASCII lower-casing, which is what `toLowerCase` does on ASCII text. -/
def asciiLower (s : String) : String := String.mk (s.data.map Char.toLower)

/-- The error the toy codec throws. -/
def jsonWebTokenError (msg : String) : JSError :=
  { name := .str "JsonWebTokenError", message := .str msg, details := .undefined }

/-- Claims of a customer, accepted by the toy codec under the token
`"customer-token"`. -/
def customerClaims : JSVal :=
  .obj [("id", .num 7), ("name", .str "Cee"), ("email", .str "cee@x.com"),
    ("image", .undefined), ("role", .obj [("id", .num 3), ("name", .str "CUSTOMER")])]

/-- The in-memory collaborators. -/
def memDeps : Deps MemStore where
  userFindOne opts s :=
    .ok (match opts.includes with
      | [] => findRow opts.whereClause s.users
      | _ => withRole s.roles (findRow opts.whereClause s.users))
  userFindByPk pk s := .ok (findRow (.obj [("id", pk)]) s.users)
  userCreate values s :=
    match values with
    | .obj fields =>
        (.ok (.obj (("id", .num (s.users.length + 1)) :: fields)),
          { s with users := s.users ++ [.obj (("id", .num (s.users.length + 1)) :: fields)] })
    | _ => (.error { name := .str "ValidationError", message := .str "values must be an object",
                     details := .undefined }, s)
  userModelName := .str "User"
  roleFindOne opts s := .ok (findRow opts.whereClause s.roles)
  roleFindByPk pk s := .ok (findRow (.obj [("id", pk)]) s.roles)
  roleModelName := .str "Role"
  hashSync data rounds :=
    match data with
    | .str pw => .ok (.str ("$" ++ toString rounds ++ "$" ++ pw))
    | _ => .error { name := .str "Error", message := .str "data must be a string",
                    details := .undefined }
  compareSync data encrypted :=
    match data, encrypted with
    | .str pw, .str h => .ok (.bool (h == "$10$" ++ pw))
    | _, _ => .error { name := .str "Error", message := .str "data and hash must be strings",
                       details := .undefined }
  sign payload _ := .ok (.obj [("signed", payload)])
  verify token _ :=
    match token with
    | .obj [("signed", payload)] => .ok payload
    | .str "customer-token" => .ok customerClaims
    | .undefined => .error (jsonWebTokenError "jwt must be provided")
    | _ => .error (jsonWebTokenError "jwt malformed")
  JWT_SIGNATURE_KEY := .str "secret"
  toLowerCase := asciiLower
  EmailNotRegisteredError email :=
    { name := .str "EmailNotRegisteredError", message := .str "email is not registered",
      details := .obj [("email", email)] }
  InsufficientAccessError role :=
    { name := .str "InsufficientAccessError", message := .str "Access forbidden!",
      details := .obj [("role", role)] }
  RecordNotFoundError model :=
    { name := .str "RecordNotFoundError", message := .str "record not found",
      details := .obj [("model", model)] }
  WrongPasswordError :=
    { name := .str "WrongPasswordError", message := .str "Password is not correct!",
      details := .undefined }
  EmailAlreadyTakenError email :=
    { name := .str "EmailAlreadyTakenError", message := .str "email is already taken",
      details := .obj [("email", email)] }

/-- The rejection of a store whose database connection is down. -/
def connectionError : JSError :=
  { name := .str "SequelizeConnectionRefusedError", message := .str "connect ECONNREFUSED",
    details := .undefined }

/-- The in-memory collaborators with a user model whose `findByPk` rejects. -/
def offlineDeps : Deps MemStore :=
  { memDeps with userFindByPk := fun _ _ => .error connectionError }

/-- The three reference roles. -/
def seedRoles : List JSVal :=
  [.obj [("id", .num 1), ("name", .str "PUBLIC")],
   .obj [("id", .num 2), ("name", .str "ADMIN")],
   .obj [("id", .num 3), ("name", .str "CUSTOMER")]]

/-- A fresh world over a store with the reference roles and no user. -/
def freshWorld : World MemStore :=
  { store := { users := [], roles := seedRoles }, log := [], user := .undefined }

/-- A registration request. -/
def registerRequest (name email password : String) : Request :=
  { authorization := .undefined,
    body := .obj [("name", .str name), ("email", .str email), ("password", .str password)] }

/-- A login request. -/
def loginRequest (email password : String) : Request :=
  { authorization := .undefined,
    body := .obj [("email", .str email), ("password", .str password)] }

/-- The user row the in-memory store holds after registering
`A` / `A@B.com` / `p` on a fresh store. -/
def aliceRow : JSVal :=
  .obj [("id", .num 1), ("name", .str "A"), ("email", .str "a@b.com"),
    ("encryptedPassword", .str "$10$p"), ("roleId", .num 3)]

/-- A world whose store holds that user, for a request authenticated as her. -/
def aliceWorld : World MemStore :=
  { store := { users := [aliceRow], roles := seedRoles }, log := [],
    user := .obj [("id", .num 1), ("name", .str "A"), ("email", .str "a@b.com"),
      ("image", .undefined), ("role", .obj [("id", .num 3), ("name", .str "CUSTOMER")])] }

/-- A user row whose `roleId` names no role of the store. -/
def danglingRow : JSVal :=
  .obj [("id", .num 2), ("name", .str "D"), ("email", .str "d@x.com"),
    ("encryptedPassword", .str "$10$p"), ("roleId", .num 9)]

/-- A world whose store holds that user and the reference roles. -/
def danglingWorld : World MemStore :=
  { store := { users := [danglingRow], roles := seedRoles }, log := [], user := .undefined }

/-- A world whose store holds neither users nor roles. -/
def emptyWorld : World MemStore :=
  { store := { users := [], roles := [] }, log := [], user := .undefined }

/-- A request that carries only an `Authorization` header. -/
def headerRequest (authorization : JSVal) : Request :=
  { authorization := authorization, body := .undefined }

/-! ## Running a computation -/

section Lemmas
variable {σ : Type}

theorem Eff.bind_run {α β : Type} (m : Eff σ α) (f : α → Eff σ β) (w : World σ) :
    (m >>= f) w = match m w with
      | (.ok a, w') => f a w'
      | (.error e, w') => (.error e, w') := rfl

theorem Eff.pure_run {α : Type} (a : α) (w : World σ) :
    (pure a : Eff σ α) w = (.ok a, w) := rfl

theorem Eff.raise_run {α : Type} (e : JSError) (w : World σ) :
    (Eff.raise e : Eff σ α) w = (.error e, w) := rfl

end Lemmas

/-! ## Splitting on `'Bearer '` -/

theorem bearer_data : "Bearer ".data = bearer := rfl

theorem breakOn_eq_none {sep : List Char} :
    ∀ s : List Char, ¬ sep <:+: s → breakOn sep s = none
  | [], _ => rfl
  | c :: cs, h => by
      have h1 : ¬ sep <+: c :: cs := fun hp => h hp.isInfix
      have h2 : ¬ sep <:+: cs := fun hi => h (List.infix_cons hi)
      simp [breakOn, List.isPrefixOf_iff_prefix, h1, breakOn_eq_none cs h2]

theorem jsSplitFuel_of_none {sep s : List Char} (h : breakOn sep s = none) (n : Nat) :
    jsSplitFuel sep n s = [s] := by
  cases n <;> simp [jsSplitFuel, h]

/-- The letter `B` occurs in `'Bearer '` only at its start, so no occurrence
of the separator can begin inside `pre` and end inside the separator. -/
theorem bearer_no_straddle (pre t : List Char) (hne : pre ≠ []) (h : ¬ bearer <:+: pre) :
    ¬ bearer <+: pre ++ bearer ++ t := by
  intro hp
  by_cases hlen : bearer.length ≤ pre.length
  · apply h
    rw [List.append_assoc] at hp
    exact (List.prefix_of_prefix_length_le hp (List.prefix_append _ _) hlen).isInfix
  · simp [bearer] at hlen
    match pre, hne with
    | [a], _ => simp [bearer] at hp
    | [a, b], _ => simp [bearer] at hp
    | [a, b, c], _ => simp [bearer] at hp
    | [a, b, c, d], _ => simp [bearer] at hp
    | [a, b, c, d, e], _ => simp [bearer] at hp
    | [a, b, c, d, e, f], _ => simp [bearer] at hp
    | a :: b :: c :: d :: e :: f :: g :: r, _ => simp at hlen; omega

theorem breakOn_bearer (t : List Char) :
    ∀ pre : List Char, ¬ bearer <:+: pre → breakOn bearer (pre ++ bearer ++ t) = some (pre, t)
  | [], _ => by simp [breakOn, bearer]
  | c :: cs, h => by
      have h1 : ¬ bearer <+: c :: cs ++ bearer ++ t := bearer_no_straddle (c :: cs) t (by simp) h
      have h2 : ¬ bearer <:+: cs := fun hi => h (List.infix_cons hi)
      have ih := breakOn_bearer t cs h2
      simp only [List.cons_append, List.append_assoc] at h1 ih ⊢
      simp [breakOn, List.isPrefixOf_iff_prefix, h1, ih]

theorem jsSplit_bearer (pre t : String) (hpre : ¬ bearer <:+: pre.data)
    (ht : ¬ bearer <:+: t.data) :
    jsSplit (pre ++ "Bearer " ++ t) "Bearer " = [pre, t] := by
  have hfuel : (pre.data ++ bearer ++ t.data).length
      = (pre.data.length + t.data.length + 5) + 2 := by
    simp [bearer]; omega
  unfold jsSplit
  rw [String.data_append, String.data_append, bearer_data, hfuel, jsSplitFuel,
    breakOn_bearer t.data pre.data hpre]
  simp only [jsSplitFuel_of_none (breakOn_eq_none t.data ht)]
  rfl

theorem jsSplit_no_bearer (h : String) (hh : ¬ bearer <:+: h.data) :
    jsSplit h "Bearer " = [h] := by
  unfold jsSplit
  rw [bearer_data, jsSplitFuel_of_none (breakOn_eq_none h.data hh)]
  rfl

theorem extractToken_bearer (pre t : String) (hpre : ¬ bearer <:+: pre.data)
    (ht : ¬ bearer <:+: t.data) :
    extractToken (.str (pre ++ "Bearer " ++ t)) = .ok (.str t) := by
  simp [extractToken, jsSplit_bearer pre t hpre ht]

theorem extractToken_no_bearer (h : String) (hh : ¬ bearer <:+: h.data) :
    extractToken (.str h) = .ok .undefined := by
  simp [extractToken, jsSplit_no_bearer h hh]

/-! ## The middleware `authorize` -/

section Authorize
variable {σ : Type}

/-- C2.  With no required role (`undefined`, or the empty string), a request
whose header yields a token that `decodeToken` accepts with payload `p` gets
`req.user = p` and exactly one `next()` without argument, and no response is
sent, whatever `p` is. -/
theorem authorize_without_role_accepts (d : Deps σ) (rolename : JSVal) (req : Request)
    (w : World σ) (token p : JSVal)
    (hrole : rolename = .undefined ∨ rolename = .str "")
    (htoken : extractToken req.authorization = .ok token)
    (hdecode : d.verify token d.JWT_SIGNATURE_KEY = .ok p) :
    authorize d rolename req w =
      (.ok (), { store := w.store,
                 log := w.log ++ [.verify token d.JWT_SIGNATURE_KEY, .next none],
                 user := p }) := by
  have hfalsy : rolename.truthy = false := by
    rcases hrole with h | h <;> subst h <;> rfl
  simp [authorize, Eff.tryCatch, Eff.bind_run, htoken, Eff.lift, decodeToken, jwt_verify,
    hdecode, hfalsy, setReqUser, next, Eff.emit, Eff.pure_run]

theorem getPropOpt_of_getProp {v x : JSVal} {key : String} (h : getProp v key = .ok x) :
    getPropOpt v key = x := by
  cases v <;> simp_all [getProp, getPropOpt]

/-- C1.  Whenever the middleware fails with error `err` - `decodeToken`
throws `err`, or the required role is non-empty and differs from the payload's
`role.name` and `err` is the `InsufficientAccessError` built from that actual
role name, or the required role is non-empty and reading `payload.role.name`
itself throws `err` - it sends exactly one response, status 401 with body
`error: (name, message, details || null)` of `err`, never calls `next`
and leaves `req.user` as it was. -/
theorem authorize_failure_responds_401 (d : Deps σ) (rolename : JSVal) (req : Request)
    (w : World σ) (token : JSVal) (err : JSError)
    (htoken : extractToken req.authorization = .ok token)
    (hfail : d.verify token d.JWT_SIGNATURE_KEY = .error err ∨
      (∃ p role name, d.verify token d.JWT_SIGNATURE_KEY = .ok p ∧ rolename.truthy = true ∧
        getProp p "role" = .ok role ∧ getProp role "name" = .ok name ∧
        strictEq rolename name = false ∧ err = d.InsufficientAccessError name) ∨
      (∃ p, d.verify token d.JWT_SIGNATURE_KEY = .ok p ∧ rolename.truthy = true ∧
        (getProp p "role" >>= fun role => getProp role "name") = .error err)) :
    authorize d rolename req w =
      (.ok (), { store := w.store,
                 log := w.log ++ [.verify token d.JWT_SIGNATURE_KEY,
                   .respond 401 (.value (.obj [("error", .obj [("name", err.name),
                     ("message", err.message),
                     ("details", if err.details.truthy then err.details else .null)])]))],
                 user := w.user }) := by
  rcases hfail with h | ⟨p, role, name, hp, hr, hrole, hname, hne, herr⟩ | ⟨p, hp, hr, hthrow⟩
  · simp [authorize, Eff.tryCatch, Eff.bind_run, htoken, Eff.lift, decodeToken, jwt_verify,
      h, respond, Eff.emit, authErrorBody, jsOr]
  · have hopt : getPropOpt (getPropOpt p "role") "name" = name := by
      rw [getPropOpt_of_getProp hrole, getPropOpt_of_getProp hname]
    simp [authorize, Eff.tryCatch, Eff.bind_run, htoken, Eff.lift, decodeToken, jwt_verify,
      hp, hr, hrole, hname, hne, hopt, herr, respond, Eff.emit, authErrorBody, jsOr,
      Eff.raise_run]
  · cases hrole : getProp p "role" with
    | error e =>
      simp [hrole, bind, Except.bind] at hthrow
      simp [authorize, Eff.tryCatch, Eff.bind_run, htoken, Eff.lift, decodeToken, jwt_verify,
        hp, hr, hrole, hthrow, respond, Eff.emit, authErrorBody, jsOr]
    | ok role =>
      simp [hrole, bind, Except.bind] at hthrow
      simp [authorize, Eff.tryCatch, Eff.bind_run, htoken, Eff.lift, decodeToken, jwt_verify,
        hp, hr, hrole, hthrow, respond, Eff.emit, authErrorBody, jsOr]

/-- After extracting `token`, the middleware calls `decodeToken` on exactly
that token, once, and then does exactly one more thing: `next()` or a 401
response. -/
theorem authorize_log (d : Deps σ) (rolename : JSVal) (req : Request) (w : World σ)
    (token : JSVal) (htoken : extractToken req.authorization = .ok token) :
    ∃ ev, (authorize d rolename req w).2.log
        = w.log ++ [.verify token d.JWT_SIGNATURE_KEY, ev] ∧
      (ev = .next none ∨ ∃ e, ev = .respond 401 (authErrorBody e)) := by
  cases hv : d.verify token d.JWT_SIGNATURE_KEY with
  | error e =>
    exact ⟨_, by simp [authorize, Eff.tryCatch, Eff.bind_run, htoken, Eff.lift, decodeToken,
      jwt_verify, hv, respond, Eff.emit], Or.inr ⟨e, rfl⟩⟩
  | ok p =>
    cases hr : rolename.truthy with
    | false =>
      exact ⟨_, by simp [authorize, Eff.tryCatch, Eff.bind_run, htoken, Eff.lift, decodeToken,
        jwt_verify, hv, hr, setReqUser, next, Eff.emit, Eff.pure_run], Or.inl rfl⟩
    | true =>
      cases hrole : getProp p "role" with
      | error e =>
        exact ⟨_, by simp [authorize, Eff.tryCatch, Eff.bind_run, htoken, Eff.lift, decodeToken,
          jwt_verify, hv, hr, hrole, respond, Eff.emit], Or.inr ⟨e, rfl⟩⟩
      | ok role =>
        cases hname : getProp role "name" with
        | error e =>
          exact ⟨_, by simp [authorize, Eff.tryCatch, Eff.bind_run, htoken, Eff.lift,
            decodeToken, jwt_verify, hv, hr, hrole, hname, respond, Eff.emit], Or.inr ⟨e, rfl⟩⟩
        | ok name =>
          cases heq : strictEq rolename name with
          | false =>
            exact ⟨.respond 401 (authErrorBody
                (d.InsufficientAccessError (getPropOpt (getPropOpt p "role") "name"))),
              by simp [authorize, Eff.tryCatch, Eff.bind_run, htoken, Eff.lift,
                decodeToken, jwt_verify, hv, hr, hrole, hname, heq, respond, Eff.emit,
                Eff.raise_run], Or.inr ⟨_, rfl⟩⟩
          | true =>
            exact ⟨_, by simp [authorize, Eff.tryCatch, Eff.bind_run, htoken, Eff.lift,
              decodeToken, jwt_verify, hv, hr, hrole, hname, heq, setReqUser, next, Eff.emit,
              Eff.pure_run], Or.inl rfl⟩

/-- C3 (amended).  A header that is missing, or that contains no occurrence
of `'Bearer '`, makes the middleware call `decodeToken(undefined)`; when the
codec rejects `undefined` the middleware answers 401 and `next` is not
called.  A header `pre + 'Bearer ' + t`, where neither `pre` nor `t` contains
`'Bearer '`, makes the middleware pass exactly `t` to `decodeToken`, whatever
the text `pre` before the separator is (the empty text included). -/
theorem authorize_token_extraction (d : Deps σ) (rolename : JSVal) (w : World σ) :
    (∀ (req : Request) (e : JSError),
      (req.authorization = .undefined ∨
        ∃ h, req.authorization = .str h ∧ ¬ "Bearer ".data <:+: h.data) →
      d.verify .undefined d.JWT_SIGNATURE_KEY = .error e →
      authorize d rolename req w =
        (.ok (), { store := w.store,
                   log := w.log ++ [.verify .undefined d.JWT_SIGNATURE_KEY,
                     .respond 401 (authErrorBody e)],
                   user := w.user })) ∧
    (∀ (pre t : String) (body : JSVal),
      ¬ "Bearer ".data <:+: pre.data → ¬ "Bearer ".data <:+: t.data →
      ∃ ev, (authorize d rolename
            { authorization := .str (pre ++ "Bearer " ++ t), body := body } w).2.log
          = w.log ++ [.verify (.str t) d.JWT_SIGNATURE_KEY, ev] ∧
        (ev = .next none ∨ ∃ e, ev = .respond 401 (authErrorBody e))) := by
  refine ⟨?_, ?_⟩
  · intro req e hreq hrej
    have htoken : extractToken req.authorization = .ok .undefined := by
      rcases hreq with h | ⟨h, hh, hno⟩
      · rw [h]; rfl
      · rw [hh]; exact extractToken_no_bearer h hno
    simp [authorize, Eff.tryCatch, Eff.bind_run, htoken, Eff.lift, decodeToken, jwt_verify,
      hrej, respond, Eff.emit]
  · intro pre t body hpre ht
    exact authorize_log d rolename _ w (.str t) (extractToken_bearer pre t hpre ht)

end Authorize

/-! ## The handlers -/

section Handlers
variable {σ : Type}

theorem isNullish_of_truthy {v : JSVal} (h : v.truthy = true) : v.isNullish = false := by
  cases v <;> simp_all [JSVal.truthy, JSVal.isNullish]

theorem getProp_of_not_nullish {v : JSVal} (h : v.isNullish = false) (key : String) :
    getProp v key = .ok (getPropOpt v key) := by
  cases v <;> simp_all [JSVal.isNullish, getProp, getPropOpt]

theorem getProp_of_truthy {v : JSVal} (h : v.truthy = true) (key : String) :
    getProp v key = .ok (getPropOpt v key) :=
  getProp_of_not_nullish (isNullish_of_truthy h) key

theorem getProp_obj (fields : List (String × JSVal)) (key : String) :
    getProp (.obj fields) key = .ok ((fields.lookup key).getD .undefined) := rfl

theorem destructure_obj (fields : List (String × JSVal)) (key : String) :
    destructure (.obj fields) key = .ok ((fields.lookup key).getD .undefined) := rfl

/-- For readable records the claims literal has exactly five fields. -/
theorem tokenClaims_of_not_nullish {user role : JSVal} (hu : user.isNullish = false)
    (hr : role.isNullish = false) :
    tokenClaims user role =
      .ok (.obj [("id", getPropOpt user "id"), ("name", getPropOpt user "name"),
        ("email", getPropOpt user "email"), ("image", getPropOpt user "image"),
        ("role", .obj [("id", getPropOpt role "id"), ("name", getPropOpt role "name")])]) := by
  simp only [tokenClaims, getProp_of_not_nullish hu, getProp_of_not_nullish hr]
  rfl

/-- The claims literal has a value only for a readable user and role. -/
theorem not_nullish_of_tokenClaims {user role claims : JSVal}
    (h : tokenClaims user role = .ok claims) :
    user.isNullish = false ∧ role.isNullish = false := by
  cases user <;> cases role <;>
    simp_all [tokenClaims, getProp, JSVal.isNullish, bind, Except.bind]

/-- What `createTokenFromUser` does once the claims literal has a value. -/
theorem createTokenFromUser_run (d : Deps σ) (user role claims : JSVal) (w : World σ)
    (hclaims : tokenClaims user role = .ok claims) :
    createTokenFromUser d user role w =
      (d.sign claims d.JWT_SIGNATURE_KEY,
        { store := w.store, log := w.log ++ [.sign claims d.JWT_SIGNATURE_KEY],
          user := w.user }) := by
  simp [createTokenFromUser, Eff.bind_run, Eff.lift, hclaims, jwt_sign]

/-- What `createTokenFromUser` does when building the claims literal throws. -/
theorem createTokenFromUser_throw (d : Deps σ) (user role : JSVal) (err : JSError)
    (w : World σ) (hclaims : tokenClaims user role = .error err) :
    createTokenFromUser d user role w = (.error err, w) := by
  simp [createTokenFromUser, Eff.bind_run, Eff.lift, hclaims]

/-- Reading `role.id` is the first thing that can throw while the claims
literal is built for a readable user. -/
theorem tokenClaims_of_nullish_role {user role : JSVal} {err : JSError}
    (hu : user.isNullish = false) (hr : getProp role "id" = .error err) :
    tokenClaims user role = .error err := by
  simp only [tokenClaims, getProp_of_not_nullish hu, hr]
  rfl

theorem getProp_throws_of_nullish {v : JSVal} (h : v.isNullish = true) (key : String) :
    ∃ err, getProp v key = .error err := by
  cases v <;> simp_all [JSVal.isNullish, getProp]

/-- C4 (amended).  For a body with a string email, `handleLogin` looks the user
up by the lower-cased email, joined with the role attributes `id` and `name`.
Once that lookup has resolved to `user`: a falsy `user` gets 404 with the
`EmailNotRegisteredError` of the lower-cased email (no password check, no
signing); a falsy verdict of `verifyPassword` gets 401 with the
`WrongPasswordError` (no signing); a truthy verdict with a readable
`user.Role` and a signer that returns gets 201 with `accessToken` equal to
what `createTokenFromUser(user, user.Role)` returns.  In these three cases
there is exactly one response and no `next`.  With a truthy verdict and
`user.Role` `null` or `undefined`, reading `role.id` throws; that error is
passed to `next` once and neither a token is signed nor a response sent.  A
throwing signer is passed to `next` in the same way. -/
theorem handleLogin_responses (d : Deps σ) (req : Request) (w : World σ)
    (fields : List (String × JSVal)) (e : String) (user : JSVal)
    (hbody : req.body = .obj fields)
    (hemail : fields.lookup "email" = some (.str e))
    (hfind : d.userFindOne { whereClause := .obj [("email", .str (d.toLowerCase e))], includes := [{ model := .roleModel, attributes := ["id", "name"] }] } w.store = .ok user) :
    (user.truthy = false →
      handleLogin d req w =
        (.ok (), { store := w.store,
                   log := w.log ++ [
                     .userFindOne { whereClause := .obj [("email", .str (d.toLowerCase e))], includes := [{ model := .roleModel, attributes := ["id", "name"] }] },
                     .respond 404 (.error (d.EmailNotRegisteredError
                       (.str (d.toLowerCase e))))],
                   user := w.user })) ∧
    (∀ verdict, user.truthy = true →
      d.compareSync ((fields.lookup "password").getD .undefined) (getPropOpt user "encryptedPassword") = .ok verdict →
      verdict.truthy = false →
      handleLogin d req w =
        (.ok (), { store := w.store,
                   log := w.log ++ [
                     .userFindOne { whereClause := .obj [("email", .str (d.toLowerCase e))], includes := [{ model := .roleModel, attributes := ["id", "name"] }] },
                     .compareSync ((fields.lookup "password").getD .undefined) (getPropOpt user "encryptedPassword"),
                     .respond 401 (.error d.WrongPasswordError)],
                   user := w.user })) ∧
    (∀ verdict accessToken, user.truthy = true →
      d.compareSync ((fields.lookup "password").getD .undefined) (getPropOpt user "encryptedPassword") = .ok verdict →
      verdict.truthy = true →
      (getPropOpt user "Role").isNullish = false →
      d.sign (.obj [("id", getPropOpt user "id"), ("name", getPropOpt user "name"),
                         ("email", getPropOpt user "email"), ("image", getPropOpt user "image"),
                         ("role", .obj [("id", getPropOpt (getPropOpt user "Role") "id"),
                           ("name", getPropOpt (getPropOpt user "Role") "name")])]) d.JWT_SIGNATURE_KEY = .ok accessToken →
      handleLogin d req w =
        (.ok (), { store := w.store,
                   log := w.log ++ [
                     .userFindOne { whereClause := .obj [("email", .str (d.toLowerCase e))], includes := [{ model := .roleModel, attributes := ["id", "name"] }] },
                     .compareSync ((fields.lookup "password").getD .undefined) (getPropOpt user "encryptedPassword"),
                     .sign (.obj [("id", getPropOpt user "id"), ("name", getPropOpt user "name"),
                         ("email", getPropOpt user "email"), ("image", getPropOpt user "image"),
                         ("role", .obj [("id", getPropOpt (getPropOpt user "Role") "id"),
                           ("name", getPropOpt (getPropOpt user "Role") "name")])])
                       d.JWT_SIGNATURE_KEY,
                     .respond 201 (.value (.obj [("accessToken", accessToken)]))],
                   user := w.user }) ∧
      ∀ w' : World σ,
        (createTokenFromUser d user (getPropOpt user "Role") w').1 = .ok accessToken) ∧
    (∀ verdict, user.truthy = true →
      d.compareSync ((fields.lookup "password").getD .undefined) (getPropOpt user "encryptedPassword") = .ok verdict →
      verdict.truthy = true →
      (getPropOpt user "Role").isNullish = true →
      ∃ err, getProp (getPropOpt user "Role") "id" = .error err ∧
        handleLogin d req w =
          (.ok (), { store := w.store,
                     log := w.log ++ [
                       .userFindOne { whereClause := .obj [("email", .str (d.toLowerCase e))], includes := [{ model := .roleModel, attributes := ["id", "name"] }] },
                       .compareSync ((fields.lookup "password").getD .undefined) (getPropOpt user "encryptedPassword"),
                       .next (some err)],
                     user := w.user })) ∧
    (∀ verdict err, user.truthy = true →
      d.compareSync ((fields.lookup "password").getD .undefined) (getPropOpt user "encryptedPassword") = .ok verdict →
      verdict.truthy = true →
      (getPropOpt user "Role").isNullish = false →
      d.sign (.obj [("id", getPropOpt user "id"), ("name", getPropOpt user "name"),
                         ("email", getPropOpt user "email"), ("image", getPropOpt user "image"),
                         ("role", .obj [("id", getPropOpt (getPropOpt user "Role") "id"),
                           ("name", getPropOpt (getPropOpt user "Role") "name")])]) d.JWT_SIGNATURE_KEY = .error err →
      handleLogin d req w =
        (.ok (), { store := w.store,
                   log := w.log ++ [
                     .userFindOne { whereClause := .obj [("email", .str (d.toLowerCase e))], includes := [{ model := .roleModel, attributes := ["id", "name"] }] },
                     .compareSync ((fields.lookup "password").getD .undefined) (getPropOpt user "encryptedPassword"),
                     .sign (.obj [("id", getPropOpt user "id"), ("name", getPropOpt user "name"),
                         ("email", getPropOpt user "email"), ("image", getPropOpt user "image"),
                         ("role", .obj [("id", getPropOpt (getPropOpt user "Role") "id"),
                           ("name", getPropOpt (getPropOpt user "Role") "name")])])
                       d.JWT_SIGNATURE_KEY,
                     .next (some err)],
                   user := w.user })) := by
  have hquery : loginQuery (.str (d.toLowerCase e)) = { whereClause := .obj [("email", .str (d.toLowerCase e))], includes := [{ model := .roleModel, attributes := ["id", "name"] }] } := rfl
  rw [← hquery] at hfind ⊢
  refine ⟨?_, ?_, ?_, ?_, ?_⟩
  · intro hu
    simp [handleLogin, Eff.tryCatch, Eff.bind_run, Eff.lift, hbody, getProp_obj, destructure_obj,
      hemail, callToLowerCase, userModel_findOne, hfind, hu, respond, Eff.emit]
  · intro verdict hu hcmp hv
    simp [handleLogin, Eff.tryCatch, Eff.bind_run, Eff.lift, hbody, getProp_obj, destructure_obj,
      hemail, callToLowerCase, userModel_findOne, hfind, hu, respond, Eff.emit,
      getProp_of_truthy hu, verifyPassword, bcrypt_compareSync, hcmp, hv]
  · intro verdict accessToken hu hcmp hv hrole hsign
    have hclaims := tokenClaims_of_not_nullish (isNullish_of_truthy hu) hrole
    refine ⟨?_, ?_⟩
    · simp [handleLogin, Eff.tryCatch, Eff.bind_run, Eff.lift, hbody, getProp_obj,
        destructure_obj, hemail, callToLowerCase, userModel_findOne, hfind, hu, respond,
        Eff.emit, getProp_of_truthy hu, verifyPassword, bcrypt_compareSync, hcmp, hv,
        createTokenFromUser_run d _ _ _ _ hclaims, hsign]
    · intro w'
      rw [createTokenFromUser_run d _ _ _ w' hclaims, hsign]
  · intro verdict hu hcmp hv hrole
    obtain ⟨err, herr⟩ := getProp_throws_of_nullish hrole "id"
    have hclaims := tokenClaims_of_nullish_role (isNullish_of_truthy hu) herr
    refine ⟨err, herr, ?_⟩
    simp [handleLogin, Eff.tryCatch, Eff.bind_run, Eff.lift, hbody, getProp_obj,
      destructure_obj, hemail, callToLowerCase, userModel_findOne, hfind, hu, next,
      Eff.emit, getProp_of_truthy hu, verifyPassword, bcrypt_compareSync, hcmp, hv,
      createTokenFromUser_throw d _ _ _ _ hclaims]
  · intro verdict err hu hcmp hv hrole hsign
    have hclaims := tokenClaims_of_not_nullish (isNullish_of_truthy hu) hrole
    simp [handleLogin, Eff.tryCatch, Eff.bind_run, Eff.lift, hbody, getProp_obj,
      destructure_obj, hemail, callToLowerCase, userModel_findOne, hfind, hu, next,
      Eff.emit, getProp_of_truthy hu, verifyPassword, bcrypt_compareSync, hcmp, hv,
      createTokenFromUser_run d _ _ _ _ hclaims, hsign]

/-- C6.  For a body whose lower-cased email matches no existing user, with a
`CUSTOMER` role in the store, `handleRegister` calls `userModel.create` exactly
once, with exactly the four fields `name`, `email` (lower-cased),
`encryptedPassword` (the result of `bcrypt.hashSync(password, 10)`) and
`roleId` (the id of the role found), and then answers 201 with `accessToken`
equal to what `createTokenFromUser(created user, role)` returns. -/
theorem handleRegister_creates_customer (d : Deps σ) (req : Request) (w : World σ)
    (fields : List (String × JSVal)) (e : String)
    (existing role digest user accessToken : JSVal) (s' : σ) (w1 : World σ)
    (hbody : req.body = .obj fields)
    (hemail : fields.lookup "email" = some (.str e))
    (hfind : d.userFindOne (emailQuery (.str (d.toLowerCase e))) w.store = .ok existing)
    (hfree : existing.truthy = false)
    (hrole : d.roleFindOne customerRoleQuery w.store = .ok role)
    (hfound : role.isNullish = false)
    (hhash : d.hashSync ((fields.lookup "password").getD .undefined) 10 = .ok digest)
    (hcreate : d.userCreate
      (.obj [("name", (fields.lookup "name").getD .undefined),
        ("email", .str (d.toLowerCase e)), ("encryptedPassword", digest),
        ("roleId", getPropOpt role "id")]) w.store = (.ok user, s'))
    (htok : createTokenFromUser d user role
      { store := s',
        log := w.log ++ [
          .userFindOne (emailQuery (.str (d.toLowerCase e))),
          .roleFindOne customerRoleQuery,
          .hashSync ((fields.lookup "password").getD .undefined) 10,
          .userCreate (.obj [("name", (fields.lookup "name").getD .undefined),
            ("email", .str (d.toLowerCase e)), ("encryptedPassword", digest),
            ("roleId", getPropOpt role "id")])],
        user := w.user } = (.ok accessToken, w1)) :
    handleRegister d req w =
      (.ok (), { store := s',
                 log := w.log ++ [
                   .userFindOne (emailQuery (.str (d.toLowerCase e))),
                   .roleFindOne customerRoleQuery,
                   .hashSync ((fields.lookup "password").getD .undefined) 10,
                   .userCreate (.obj [("name", (fields.lookup "name").getD .undefined),
                     ("email", .str (d.toLowerCase e)), ("encryptedPassword", digest),
                     ("roleId", getPropOpt role "id")]),
                   .sign (.obj [("id", getPropOpt user "id"), ("name", getPropOpt user "name"),
                       ("email", getPropOpt user "email"), ("image", getPropOpt user "image"),
                       ("role", .obj [("id", getPropOpt role "id"),
                         ("name", getPropOpt role "name")])])
                     d.JWT_SIGNATURE_KEY,
                   .respond 201 (.value (.obj [("accessToken", accessToken)]))],
                 user := w.user }) := by
  cases hclaims : tokenClaims user role with
  | error err =>
    rw [createTokenFromUser_throw d _ _ err _ hclaims] at htok
    simp at htok
  | ok claims =>
    have hnn := not_nullish_of_tokenClaims hclaims
    have hshape := hclaims
    rw [tokenClaims_of_not_nullish hnn.1 hnn.2] at hshape
    cases hshape
    rw [createTokenFromUser_run d _ _ _ _ hclaims] at htok
    simp only [Prod.mk.injEq] at htok
    simp [handleRegister, Eff.tryCatch, Eff.bind_run, Eff.lift, hbody, getProp_obj,
      destructure_obj, hemail, callToLowerCase, userModel_findOne, hfind, hfree,
      roleModel_findOne, hrole, encryptPassword, bcrypt_hashSync, hhash,
      getProp_of_not_nullish hfound, userModel_create, hcreate, respond, Eff.emit,
      createTokenFromUser_run d _ _ _ _ hclaims, htok.1]

/-- C8.  With `req.user.id = i` and the user lookup resolved to `user`,
`handleGetUser` sends exactly one response: 404 with the `RecordNotFoundError`
of the user model when `user` is falsy (no role lookup); 404 with the
`RecordNotFoundError` of the role model when the lookup of `user.roleId` finds
no role; otherwise 200 with `user` itself as body, unchanged. -/
theorem handleGetUser_responses (d : Deps σ) (w : World σ) (i user : JSVal)
    (hid : getProp w.user "id" = .ok i)
    (hfind : d.userFindByPk i w.store = .ok user) :
    (user.truthy = false →
      handleGetUser d w =
        (.ok (), { store := w.store,
                   log := w.log ++ [.userFindByPk i,
                     .respond 404 (.error (d.RecordNotFoundError d.userModelName))],
                   user := w.user })) ∧
    (∀ role, user.truthy = true →
      d.roleFindByPk (getPropOpt user "roleId") w.store = .ok role → role.truthy = false →
      handleGetUser d w =
        (.ok (), { store := w.store,
                   log := w.log ++ [.userFindByPk i, .roleFindByPk (getPropOpt user "roleId"),
                     .respond 404 (.error (d.RecordNotFoundError d.roleModelName))],
                   user := w.user })) ∧
    (∀ role, user.truthy = true →
      d.roleFindByPk (getPropOpt user "roleId") w.store = .ok role → role.truthy = true →
      handleGetUser d w =
        (.ok (), { store := w.store,
                   log := w.log ++ [.userFindByPk i, .roleFindByPk (getPropOpt user "roleId"),
                     .respond 200 (.value user)],
                   user := w.user })) := by
  refine ⟨?_, ?_, ?_⟩
  · intro hu
    simp [handleGetUser, Eff.bind_run, getReqUser, Eff.lift, hid, userModel_findByPk, hfind, hu,
      respond, Eff.emit]
  · intro role hu hrole hr
    simp [handleGetUser, Eff.bind_run, getReqUser, Eff.lift, hid, userModel_findByPk, hfind, hu,
      getProp_of_truthy hu, roleModel_findByPk, hrole, hr, respond, Eff.emit]
  · intro role hu hrole hr
    simp [handleGetUser, Eff.bind_run, getReqUser, Eff.lift, hid, userModel_findByPk, hfind, hu,
      getProp_of_truthy hu, roleModel_findByPk, hrole, hr, respond, Eff.emit]

/-- C9 (amended).  When the lower-cased email matches no user and the store
holds no `CUSTOMER` role (the role lookup resolves to `null`), the handler
hashes the password, then reading `role.id` throws inside the `try` block; the
`catch` clause passes that error to `next` exactly once and the handler returns
normally.  No user is created, no token is signed, no response is sent and the
store is unchanged. -/
theorem handleRegister_missing_role_forwarded (d : Deps σ) (req : Request) (w : World σ)
    (fields : List (String × JSVal)) (e : String) (existing : JSVal)
    (hbody : req.body = .obj fields)
    (hemail : fields.lookup "email" = some (.str e))
    (hfind : d.userFindOne (emailQuery (.str (d.toLowerCase e))) w.store = .ok existing)
    (hfree : existing.truthy = false)
    (hrole : d.roleFindOne customerRoleQuery w.store = .ok .null) :
    ∃ err, handleRegister d req w =
      (.ok (), { store := w.store,
                 log := w.log ++ [
                   .userFindOne (emailQuery (.str (d.toLowerCase e))),
                   .roleFindOne customerRoleQuery,
                   .hashSync ((fields.lookup "password").getD .undefined) 10,
                   .next (some err)],
                 user := w.user }) ∧
      (∀ digest, d.hashSync ((fields.lookup "password").getD .undefined) 10 = .ok digest →
        err = typeError "Cannot read properties of null (reading 'id')") := by
  cases hhash : d.hashSync ((fields.lookup "password").getD .undefined) 10 with
  | error herr =>
    refine ⟨herr, ?_, by simp⟩
    simp [handleRegister, Eff.tryCatch, Eff.bind_run, Eff.lift, hbody, getProp_obj,
      destructure_obj, hemail, callToLowerCase, userModel_findOne, hfind, hfree,
      roleModel_findOne, hrole, encryptPassword, bcrypt_hashSync, hhash, next, Eff.emit]
  | ok digest =>
    refine ⟨typeError "Cannot read properties of null (reading 'id')", ?_, by simp⟩
    simp [handleRegister, Eff.tryCatch, Eff.bind_run, Eff.lift, hbody, getProp_obj,
      destructure_obj, hemail, callToLowerCase, userModel_findOne, hfind, hfree,
      roleModel_findOne, hrole, encryptPassword, bcrypt_hashSync, hhash, getProp, next,
      Eff.emit]

/-- C7.  Token round trip.  If the codec signs every claims object and
`verify` undoes `sign` under the same key, then for every readable user `U` and
role `R`, `createTokenFromUser(U, R)` returns a token, and `decodeToken` of that
token yields exactly the five claims `id`, `name`, `email`, `image` of `U` and
`role` with `id` and `name` of `R`, nothing else; the token is the same in
every world, so it depends on `U`, `R`, the codec and the key only. -/
theorem token_round_trip (d : Deps σ) (U R : JSVal) (w : World σ)
    (hU : U.isNullish = false) (hR : R.isNullish = false)
    (hcodec : ∀ c k, ∃ t, d.sign c k = .ok t ∧ d.verify t k = .ok c) :
    ∃ token,
      (createTokenFromUser d U R w).1 = .ok token ∧
      (decodeToken d token (createTokenFromUser d U R w).2).1 =
        .ok (.obj [("id", getPropOpt U "id"), ("name", getPropOpt U "name"),
          ("email", getPropOpt U "email"), ("image", getPropOpt U "image"),
          ("role", .obj [("id", getPropOpt R "id"), ("name", getPropOpt R "name")])]) ∧
      ∀ w' : World σ, (createTokenFromUser d U R w').1 = .ok token := by
  obtain ⟨t, hsign, hverify⟩ := hcodec
    (.obj [("id", getPropOpt U "id"), ("name", getPropOpt U "name"),
      ("email", getPropOpt U "email"), ("image", getPropOpt U "image"),
      ("role", .obj [("id", getPropOpt R "id"), ("name", getPropOpt R "name")])])
    d.JWT_SIGNATURE_KEY
  have hclaims := tokenClaims_of_not_nullish hU hR
  refine ⟨t, ?_, ?_, ?_⟩
  · rw [createTokenFromUser_run d U R _ w hclaims, hsign]
  · simp [decodeToken, jwt_verify, hverify]
  · intro w'
    rw [createTokenFromUser_run d U R _ w' hclaims, hsign]

/-- A handler of the shape `try ... catch (err) next(err)` never rejects. -/
theorem tryCatch_next_returns (body : Eff σ Unit) (w : World σ) :
    (Eff.tryCatch body (fun err => next (some err)) w).1 = .ok () := by
  unfold Eff.tryCatch
  cases h : body w with
  | mk res w' => cases res <;> simp [next, Eff.emit]

theorem handleLogin_never_rejects (d : Deps σ) (req : Request) (w : World σ) :
    (handleLogin d req w).1 = .ok () :=
  tryCatch_next_returns _ w

theorem handleRegister_never_rejects (d : Deps σ) (req : Request) (w : World σ) :
    (handleRegister d req w).1 = .ok () :=
  tryCatch_next_returns _ w

/-- In `handleLogin` a rejected lookup is passed to `next`, once, and nothing
is sent. -/
theorem handleLogin_forwards_rejection (d : Deps σ) (req : Request) (w : World σ)
    (fields : List (String × JSVal)) (e : String) (err : JSError)
    (hbody : req.body = .obj fields)
    (hemail : fields.lookup "email" = some (.str e))
    (hfind : d.userFindOne (loginQuery (.str (d.toLowerCase e))) w.store = .error err) :
    handleLogin d req w =
      (.ok (), { store := w.store,
                 log := w.log ++ [.userFindOne (loginQuery (.str (d.toLowerCase e))),
                   .next (some err)],
                 user := w.user }) := by
  simp [handleLogin, Eff.tryCatch, Eff.bind_run, Eff.lift, hbody, getProp_obj, destructure_obj,
    hemail, callToLowerCase, userModel_findOne, hfind, next, Eff.emit]

/-- In `handleLogin` a throwing hasher is passed to `next`, once, and nothing
is sent. -/
theorem handleLogin_forwards_hasher_throw (d : Deps σ) (req : Request) (w : World σ)
    (fields : List (String × JSVal)) (e : String) (user : JSVal) (err : JSError)
    (hbody : req.body = .obj fields)
    (hemail : fields.lookup "email" = some (.str e))
    (hfind : d.userFindOne (loginQuery (.str (d.toLowerCase e))) w.store = .ok user)
    (hu : user.truthy = true)
    (hcmp : d.compareSync ((fields.lookup "password").getD .undefined)
      (getPropOpt user "encryptedPassword") = .error err) :
    handleLogin d req w =
      (.ok (), { store := w.store,
                 log := w.log ++ [.userFindOne (loginQuery (.str (d.toLowerCase e))),
                   .compareSync ((fields.lookup "password").getD .undefined)
                     (getPropOpt user "encryptedPassword"),
                   .next (some err)],
                 user := w.user }) := by
  simp [handleLogin, Eff.tryCatch, Eff.bind_run, Eff.lift, hbody, getProp_obj, destructure_obj,
    hemail, callToLowerCase, userModel_findOne, hfind, hu, getProp_of_truthy hu, verifyPassword,
    bcrypt_compareSync, hcmp, next, Eff.emit]

/-- In `handleRegister` a rejected existence check is passed to `next`, once,
and nothing is sent. -/
theorem handleRegister_forwards_rejection (d : Deps σ) (req : Request) (w : World σ)
    (fields : List (String × JSVal)) (e : String) (err : JSError)
    (hbody : req.body = .obj fields)
    (hemail : fields.lookup "email" = some (.str e))
    (hfind : d.userFindOne (emailQuery (.str (d.toLowerCase e))) w.store = .error err) :
    handleRegister d req w =
      (.ok (), { store := w.store,
                 log := w.log ++ [.userFindOne (emailQuery (.str (d.toLowerCase e))),
                   .next (some err)],
                 user := w.user }) := by
  simp [handleRegister, Eff.tryCatch, Eff.bind_run, Eff.lift, hbody, getProp_obj,
    destructure_obj, hemail, callToLowerCase, userModel_findOne, hfind, next, Eff.emit]

/-- In `handleRegister` a rejected role lookup is passed to `next`, once, and
nothing is sent. -/
theorem handleRegister_forwards_role_rejection (d : Deps σ) (req : Request) (w : World σ)
    (fields : List (String × JSVal)) (e : String) (existing : JSVal) (err : JSError)
    (hbody : req.body = .obj fields)
    (hemail : fields.lookup "email" = some (.str e))
    (hfind : d.userFindOne (emailQuery (.str (d.toLowerCase e))) w.store = .ok existing)
    (hfree : existing.truthy = false)
    (hrole : d.roleFindOne customerRoleQuery w.store = .error err) :
    handleRegister d req w =
      (.ok (), { store := w.store,
                 log := w.log ++ [.userFindOne (emailQuery (.str (d.toLowerCase e))),
                   .roleFindOne customerRoleQuery, .next (some err)],
                 user := w.user }) := by
  simp [handleRegister, Eff.tryCatch, Eff.bind_run, Eff.lift, hbody, getProp_obj,
    destructure_obj, hemail, callToLowerCase, userModel_findOne, hfind, hfree,
    roleModel_findOne, hrole, next, Eff.emit]

/-- In `handleRegister` a throwing hasher is passed to `next`, once, and
nothing is sent or created. -/
theorem handleRegister_forwards_hasher_throw (d : Deps σ) (req : Request) (w : World σ)
    (fields : List (String × JSVal)) (e : String) (existing role : JSVal) (err : JSError)
    (hbody : req.body = .obj fields)
    (hemail : fields.lookup "email" = some (.str e))
    (hfind : d.userFindOne (emailQuery (.str (d.toLowerCase e))) w.store = .ok existing)
    (hfree : existing.truthy = false)
    (hrole : d.roleFindOne customerRoleQuery w.store = .ok role)
    (hhash : d.hashSync ((fields.lookup "password").getD .undefined) 10 = .error err) :
    handleRegister d req w =
      (.ok (), { store := w.store,
                 log := w.log ++ [.userFindOne (emailQuery (.str (d.toLowerCase e))),
                   .roleFindOne customerRoleQuery,
                   .hashSync ((fields.lookup "password").getD .undefined) 10,
                   .next (some err)],
                 user := w.user }) := by
  simp [handleRegister, Eff.tryCatch, Eff.bind_run, Eff.lift, hbody, getProp_obj,
    destructure_obj, hemail, callToLowerCase, userModel_findOne, hfind, hfree,
    roleModel_findOne, hrole, encryptPassword, bcrypt_hashSync, hhash, next, Eff.emit]

/-- In `handleRegister` a rejected `create` is passed to `next`, once, and
nothing is sent. -/
theorem handleRegister_forwards_create_rejection (d : Deps σ) (req : Request) (w : World σ)
    (fields : List (String × JSVal)) (e : String) (existing role digest : JSVal)
    (err : JSError) (s' : σ)
    (hbody : req.body = .obj fields)
    (hemail : fields.lookup "email" = some (.str e))
    (hfind : d.userFindOne (emailQuery (.str (d.toLowerCase e))) w.store = .ok existing)
    (hfree : existing.truthy = false)
    (hrole : d.roleFindOne customerRoleQuery w.store = .ok role)
    (hfound : role.isNullish = false)
    (hhash : d.hashSync ((fields.lookup "password").getD .undefined) 10 = .ok digest)
    (hcreate : d.userCreate
      (.obj [("name", (fields.lookup "name").getD .undefined),
        ("email", .str (d.toLowerCase e)), ("encryptedPassword", digest),
        ("roleId", getPropOpt role "id")]) w.store = (.error err, s')) :
    handleRegister d req w =
      (.ok (), { store := s',
                 log := w.log ++ [.userFindOne (emailQuery (.str (d.toLowerCase e))),
                   .roleFindOne customerRoleQuery,
                   .hashSync ((fields.lookup "password").getD .undefined) 10,
                   .userCreate (.obj [("name", (fields.lookup "name").getD .undefined),
                     ("email", .str (d.toLowerCase e)), ("encryptedPassword", digest),
                     ("roleId", getPropOpt role "id")]),
                   .next (some err)],
                 user := w.user }) := by
  simp [handleRegister, Eff.tryCatch, Eff.bind_run, Eff.lift, hbody, getProp_obj,
    destructure_obj, hemail, callToLowerCase, userModel_findOne, hfind, hfree,
    roleModel_findOne, hrole, encryptPassword, bcrypt_hashSync, hhash,
    getProp_of_not_nullish hfound, userModel_create, hcreate, next, Eff.emit]

/-- C10 (what the code does where the claim fails).  `handleGetUser` has no
`try` and no `next`: when the user lookup rejects with `err`, or the user is
found and the role lookup rejects with `err`, the handler itself rejects with
`err`; the error is not passed to `next` and nothing is sent. -/
theorem handleGetUser_rejection_escapes (d : Deps σ) (w : World σ) (i : JSVal)
    (err : JSError) (hid : getProp w.user "id" = .ok i) :
    (d.userFindByPk i w.store = .error err →
      handleGetUser d w =
        (.error err,
          { store := w.store, log := w.log ++ [.userFindByPk i], user := w.user })) ∧
    (∀ user, d.userFindByPk i w.store = .ok user → user.truthy = true →
      d.roleFindByPk (getPropOpt user "roleId") w.store = .error err →
      handleGetUser d w =
        (.error err,
          { store := w.store,
            log := w.log ++ [.userFindByPk i, .roleFindByPk (getPropOpt user "roleId")],
            user := w.user })) := by
  refine ⟨?_, ?_⟩
  · intro hfind
    simp [handleGetUser, Eff.bind_run, getReqUser, Eff.lift, hid, userModel_findByPk, hfind]
  · intro user hfind hu hrole
    simp [handleGetUser, Eff.bind_run, getReqUser, Eff.lift, hid, userModel_findByPk, hfind, hu,
      getProp_of_truthy hu, roleModel_findByPk, hrole]

/-- A successful `handleRegister` went through `userModel.create`: the store
it leaves is the one `create` produced for a record carrying the lower-cased
email. -/
theorem handleRegister_success_store (d : Deps σ) (req : Request) (w : World σ)
    (fields : List (String × JSVal)) (e : String) (body : Body)
    (hbody : req.body = .obj fields)
    (hemail : fields.lookup "email" = some (.str e))
    (hsuccess : (handleRegister d req w).2.log.getLast? = some (.respond 201 body)) :
    ∃ values user,
      getPropOpt values "email" = .str (d.toLowerCase e) ∧
      d.userCreate values w.store = (.ok user, (handleRegister d req w).2.store) := by
  cases hfind : d.userFindOne (emailQuery (.str (d.toLowerCase e))) w.store with
  | error err =>
    simp [handleRegister, Eff.tryCatch, Eff.bind_run, Eff.lift, hbody, getProp_obj,
      destructure_obj, hemail, callToLowerCase, userModel_findOne, hfind, next, Eff.emit]
      at hsuccess
  | ok existing =>
    cases hex : existing.truthy with
    | true =>
      simp [handleRegister, Eff.tryCatch, Eff.bind_run, Eff.lift, hbody, getProp_obj,
        destructure_obj, hemail, callToLowerCase, userModel_findOne, hfind, hex, respond,
        Eff.emit] at hsuccess
    | false =>
      cases hrole : d.roleFindOne customerRoleQuery w.store with
      | error err =>
        simp [handleRegister, Eff.tryCatch, Eff.bind_run, Eff.lift, hbody, getProp_obj,
          destructure_obj, hemail, callToLowerCase, userModel_findOne, hfind, hex,
          roleModel_findOne, hrole, next, Eff.emit] at hsuccess
      | ok role =>
        cases hhash : d.hashSync ((fields.lookup "password").getD .undefined) 10 with
        | error err =>
          simp [handleRegister, Eff.tryCatch, Eff.bind_run, Eff.lift, hbody, getProp_obj,
            destructure_obj, hemail, callToLowerCase, userModel_findOne, hfind, hex,
            roleModel_findOne, hrole, encryptPassword, bcrypt_hashSync, hhash, next, Eff.emit]
            at hsuccess
        | ok digest =>
          cases hid : getProp role "id" with
          | error err =>
            simp [handleRegister, Eff.tryCatch, Eff.bind_run, Eff.lift, hbody, getProp_obj,
              destructure_obj, hemail, callToLowerCase, userModel_findOne, hfind, hex,
              roleModel_findOne, hrole, encryptPassword, bcrypt_hashSync, hhash, hid, next,
              Eff.emit] at hsuccess
          | ok roleId =>
            cases hcreate : d.userCreate
                (.obj [("name", (fields.lookup "name").getD .undefined),
                  ("email", .str (d.toLowerCase e)), ("encryptedPassword", digest),
                  ("roleId", roleId)]) w.store with
            | mk res s' =>
              cases res with
              | error err =>
                simp [handleRegister, Eff.tryCatch, Eff.bind_run, Eff.lift, hbody, getProp_obj,
                  destructure_obj, hemail, callToLowerCase, userModel_findOne, hfind, hex,
                  roleModel_findOne, hrole, encryptPassword, bcrypt_hashSync, hhash, hid,
                  userModel_create, hcreate, next, Eff.emit] at hsuccess
              | ok user =>
                refine ⟨.obj [("name", (fields.lookup "name").getD .undefined),
                    ("email", .str (d.toLowerCase e)), ("encryptedPassword", digest),
                    ("roleId", roleId)], user, ?_, ?_⟩
                · simp [getPropOpt, List.lookup]
                · rw [hcreate]
                  congr 1
                  cases hclaims : tokenClaims user role with
                  | error err =>
                    simp [handleRegister, Eff.tryCatch, Eff.bind_run, Eff.lift, hbody,
                      getProp_obj, destructure_obj, hemail, callToLowerCase, userModel_findOne,
                      hfind, hex, roleModel_findOne, hrole, encryptPassword, bcrypt_hashSync,
                      hhash, hid, userModel_create, hcreate, next, Eff.emit,
                      createTokenFromUser_throw d _ _ err _ hclaims]
                  | ok claims =>
                    cases hsign : d.sign claims d.JWT_SIGNATURE_KEY with
                    | error err =>
                      simp [handleRegister, Eff.tryCatch, Eff.bind_run, Eff.lift, hbody,
                        getProp_obj, destructure_obj, hemail, callToLowerCase,
                        userModel_findOne, hfind, hex, roleModel_findOne, hrole,
                        encryptPassword, bcrypt_hashSync, hhash, hid, userModel_create, hcreate,
                        next, Eff.emit, createTokenFromUser_run d _ _ _ _ hclaims, hsign]
                    | ok token =>
                      simp [handleRegister, Eff.tryCatch, Eff.bind_run, Eff.lift, hbody,
                        getProp_obj, destructure_obj, hemail, callToLowerCase,
                        userModel_findOne, hfind, hex, roleModel_findOne, hrole,
                        encryptPassword, bcrypt_hashSync, hhash, hid, userModel_create, hcreate,
                        respond, Eff.emit, createTokenFromUser_run d _ _ _ _ hclaims, hsign]

/-- What `handleRegister` does when the lower-cased email is already taken. -/
theorem handleRegister_taken (d : Deps σ) (req : Request) (w : World σ)
    (fields : List (String × JSVal)) (e : String) (existing : JSVal)
    (hbody : req.body = .obj fields)
    (hemail : fields.lookup "email" = some (.str e))
    (hfind : d.userFindOne (emailQuery (.str (d.toLowerCase e))) w.store = .ok existing)
    (hex : existing.truthy = true) :
    handleRegister d req w =
      (.ok (), { store := w.store,
                 log := w.log ++ [.userFindOne (emailQuery (.str (d.toLowerCase e))),
                   .respond 422 (.error (d.EmailAlreadyTakenError (.str (d.toLowerCase e))))],
                 user := w.user }) := by
  simp [handleRegister, Eff.tryCatch, Eff.bind_run, Eff.lift, hbody, getProp_obj,
    destructure_obj, hemail, callToLowerCase, userModel_findOne, hfind, hex, respond, Eff.emit]

/-- C5.  Registration is case-insensitive in the email.  Over any store in
which a created user is found again by its email, if `handleRegister` with
email `e1` succeeded (its last act was a 201 response) and `e2` has the same
lower-case form, then `handleRegister` with `e2` on the resulting world only
looks the email up and answers 422 with the `EmailAlreadyTakenError`: no role
lookup, no hashing, no `create`, no signing, and the store is unchanged. -/
theorem handleRegister_duplicate_email (d : Deps σ) (req1 req2 : Request) (w : World σ)
    (fields1 fields2 : List (String × JSVal)) (e1 e2 : String) (body : Body)
    (hbody1 : req1.body = .obj fields1)
    (hemail1 : fields1.lookup "email" = some (.str e1))
    (hbody2 : req2.body = .obj fields2)
    (hemail2 : fields2.lookup "email" = some (.str e2))
    (hlower : d.toLowerCase e1 = d.toLowerCase e2)
    (hstore : ∀ values s user s' email, d.userCreate values s = (.ok user, s') →
      getPropOpt values "email" = .str email →
      ∃ found, d.userFindOne (emailQuery (.str email)) s' = .ok found ∧ found.truthy = true)
    (hsuccess : (handleRegister d req1 w).2.log.getLast? = some (.respond 201 body)) :
    handleRegister d req2 (handleRegister d req1 w).2 =
      (.ok (), { store := (handleRegister d req1 w).2.store,
                 log := (handleRegister d req1 w).2.log ++ [
                   .userFindOne (emailQuery (.str (d.toLowerCase e2))),
                   .respond 422 (.error (d.EmailAlreadyTakenError (.str (d.toLowerCase e2))))],
                 user := (handleRegister d req1 w).2.user }) := by
  obtain ⟨values, user, hvalues, hcreate⟩ :=
    handleRegister_success_store d req1 w fields1 e1 body hbody1 hemail1 hsuccess
  obtain ⟨found, hfound, htruthy⟩ := hstore values w.store user _ _ hcreate hvalues
  rw [hlower] at hfound
  exact handleRegister_taken d req2 _ fields2 e2 found hbody2 hemail2 hfound htruthy

end Handlers

/-! ## The middleware on concrete requests -/

/-- Instance of C1: `authorize('ADMIN')` on a valid token whose role name is
`CUSTOMER` answers 401 with details carrying `CUSTOMER`. -/
theorem authorize_failure_responds_401_witness :
    extractToken (.str "Bearer customer-token") = .ok (.str "customer-token") ∧
    authorize memDeps (.str "ADMIN") (headerRequest (.str "Bearer customer-token")) freshWorld =
      (.ok (), { store := freshWorld.store,
                 log := [.verify (.str "customer-token") (.str "secret"),
                   .respond 401 (.value (.obj [("error", .obj [
                     ("name", .str "InsufficientAccessError"),
                     ("message", .str "Access forbidden!"),
                     ("details", .obj [("role", .str "CUSTOMER")])])]))],
                 user := .undefined }) :=
  ⟨rfl, authorize_failure_responds_401 memDeps (.str "ADMIN")
    (headerRequest (.str "Bearer customer-token")) freshWorld (.str "customer-token")
    (memDeps.InsufficientAccessError (.str "CUSTOMER")) rfl
    (Or.inr (Or.inl ⟨customerClaims, .obj [("id", .num 3), ("name", .str "CUSTOMER")],
      .str "CUSTOMER", rfl, rfl, rfl, rfl, rfl, rfl⟩))⟩

/-- Instance of C2: `authorize()` lets the customer token through. -/
theorem authorize_without_role_accepts_witness :
    authorize memDeps .undefined (headerRequest (.str "Bearer customer-token")) freshWorld =
      (.ok (), { store := freshWorld.store,
                 log := [.verify (.str "customer-token") (.str "secret"), .next none],
                 user := customerClaims }) :=
  authorize_without_role_accepts memDeps .undefined
    (headerRequest (.str "Bearer customer-token")) freshWorld (.str "customer-token")
    customerClaims (Or.inl rfl) rfl rfl

/-- Counterexample to C3 as stated: the header `xBearer customer-token` is not
of the form `Bearer <token>`, yet the middleware decodes the token after the
separator, sets `req.user`, calls `next()` and sends no 401. -/
theorem authorize_accepts_prefixed_header :
    ¬ "Bearer ".data <+: "xBearer customer-token".data ∧
    authorize memDeps .undefined (headerRequest (.str "xBearer customer-token")) freshWorld =
      (.ok (), { store := freshWorld.store,
                 log := [.verify (.str "customer-token") (.str "secret"), .next none],
                 user := customerClaims }) :=
  ⟨by decide, rfl⟩

/-- Instance of the amended C3: a missing header is answered with 401, and
the header `Bearer customer-token` hands `customer-token` to `decodeToken`. -/
theorem authorize_token_extraction_witness :
    authorize memDeps (.str "ADMIN") (headerRequest .undefined) freshWorld =
      (.ok (), { store := freshWorld.store,
                 log := [.verify .undefined (.str "secret"),
                   .respond 401 (authErrorBody (jsonWebTokenError "jwt must be provided"))],
                 user := .undefined }) ∧
    ∃ ev, (authorize memDeps (.str "ADMIN")
          { authorization := .str ("" ++ "Bearer " ++ "customer-token"), body := .undefined }
          freshWorld).2.log
        = [] ++ [.verify (.str "customer-token") (.str "secret"), ev] ∧
      (ev = .next none ∨ ∃ e, ev = .respond 401 (authErrorBody e)) :=
  ⟨(authorize_token_extraction memDeps (.str "ADMIN") freshWorld).1 (headerRequest .undefined)
      (jsonWebTokenError "jwt must be provided") (Or.inl rfl) rfl,
   (authorize_token_extraction memDeps (.str "ADMIN") freshWorld).2 "" "customer-token"
      .undefined (by decide) (by decide)⟩

/-! ## The handlers on concrete requests -/

/-- Instance of C6: registering `A` / `A@B.com` / `p` on a fresh store. -/
theorem handleRegister_creates_customer_witness :
    handleRegister memDeps (registerRequest "A" "A@B.com" "p") freshWorld =
      (.ok (), { store := { users := [aliceRow], roles := seedRoles },
                 log := [
                   .userFindOne (emailQuery (.str "a@b.com")),
                   .roleFindOne customerRoleQuery,
                   .hashSync (.str "p") 10,
                   .userCreate (.obj [("name", .str "A"), ("email", .str "a@b.com"),
                     ("encryptedPassword", .str "$10$p"), ("roleId", .num 3)]),
                   .sign (.obj [("id", .num 1), ("name", .str "A"), ("email", .str "a@b.com"),
                       ("image", .undefined),
                       ("role", .obj [("id", .num 3), ("name", .str "CUSTOMER")])])
                     (.str "secret"),
                   .respond 201 (.value (.obj [("accessToken",
                     .obj [("signed", .obj [("id", .num 1), ("name", .str "A"),
                       ("email", .str "a@b.com"), ("image", .undefined),
                       ("role", .obj [("id", .num 3), ("name", .str "CUSTOMER")])])])]))],
                 user := .undefined }) :=
  handleRegister_creates_customer memDeps (registerRequest "A" "A@B.com" "p") freshWorld
    [("name", .str "A"), ("email", .str "A@B.com"), ("password", .str "p")] "A@B.com"
    .null (.obj [("id", .num 3), ("name", .str "CUSTOMER")]) (.str "$10$p") aliceRow
    (.obj [("signed", .obj [("id", .num 1), ("name", .str "A"),
      ("email", .str "a@b.com"), ("image", .undefined),
      ("role", .obj [("id", .num 3), ("name", .str "CUSTOMER")])])])
    { users := [aliceRow], roles := seedRoles } _
    rfl rfl rfl rfl rfl rfl rfl rfl rfl

/-- Counterexample to C4 as stated: the user is found and the password is
right, but the user row carries no joined role (`user.Role` is `null`).
`handleLogin` sends no response at all; it passes the `TypeError` of reading
`role.id` to `next`. -/
theorem handleLogin_missing_role_calls_next :
    memDeps.userFindOne { whereClause := .obj [("email", .str "d@x.com")], includes := [{ model := .roleModel, attributes := ["id", "name"] }] } danglingWorld.store =
      .ok (.obj [("id", .num 2), ("name", .str "D"), ("email", .str "d@x.com"),
        ("encryptedPassword", .str "$10$p"), ("roleId", .num 9), ("Role", .null)]) ∧
    memDeps.compareSync (.str "p") (.str "$10$p") = .ok (.bool true) ∧
    handleLogin memDeps (loginRequest "d@x.com" "p") danglingWorld =
      (.ok (), { store := danglingWorld.store,
                 log := [
                   .userFindOne { whereClause := .obj [("email", .str "d@x.com")], includes := [{ model := .roleModel, attributes := ["id", "name"] }] },
                   .compareSync (.str "p") (.str "$10$p"),
                   .next (some (typeError "Cannot read properties of null (reading 'id')"))],
                 user := .undefined }) :=
  ⟨rfl, rfl, rfl⟩

/-- Instance of the amended C4: logging in as `A@B.com` with the right
password gets 201; logging in as the user without a joined role ends in
`next(err)`. -/
theorem handleLogin_responses_witness :
    (handleLogin memDeps (loginRequest "A@B.com" "p") aliceWorld =
      (.ok (), { store := aliceWorld.store,
                 log := [
                   .userFindOne { whereClause := .obj [("email", .str "a@b.com")], includes := [{ model := .roleModel, attributes := ["id", "name"] }] },
                   .compareSync (.str "p") (.str "$10$p"),
                   .sign (.obj [("id", .num 1), ("name", .str "A"), ("email", .str "a@b.com"),
                       ("image", .undefined),
                       ("role", .obj [("id", .num 3), ("name", .str "CUSTOMER")])])
                     (.str "secret"),
                   .respond 201 (.value (.obj [("accessToken",
                     .obj [("signed", .obj [("id", .num 1), ("name", .str "A"),
                       ("email", .str "a@b.com"), ("image", .undefined),
                       ("role", .obj [("id", .num 3), ("name", .str "CUSTOMER")])])])]))],
                 user := aliceWorld.user }) ∧
      ∀ w' : World MemStore,
        (createTokenFromUser memDeps (withRole seedRoles aliceRow)
          (.obj [("id", .num 3), ("name", .str "CUSTOMER")]) w').1 =
          .ok (.obj [("signed", .obj [("id", .num 1), ("name", .str "A"),
            ("email", .str "a@b.com"), ("image", .undefined),
            ("role", .obj [("id", .num 3), ("name", .str "CUSTOMER")])])])) ∧
    ∃ err, getProp .null "id" = .error err ∧
      handleLogin memDeps (loginRequest "d@x.com" "p") danglingWorld =
        (.ok (), { store := danglingWorld.store,
                   log := [
                     .userFindOne { whereClause := .obj [("email", .str "d@x.com")], includes := [{ model := .roleModel, attributes := ["id", "name"] }] },
                     .compareSync (.str "p") (.str "$10$p"),
                     .next (some err)],
                   user := .undefined }) :=
  ⟨(handleLogin_responses memDeps (loginRequest "A@B.com" "p") aliceWorld
      [("email", .str "A@B.com"), ("password", .str "p")] "A@B.com"
      (withRole seedRoles aliceRow) rfl rfl rfl).2.2.1 (.bool true)
      (.obj [("signed", .obj [("id", .num 1), ("name", .str "A"),
        ("email", .str "a@b.com"), ("image", .undefined),
        ("role", .obj [("id", .num 3), ("name", .str "CUSTOMER")])])]) rfl rfl rfl rfl rfl,
   (handleLogin_responses memDeps (loginRequest "d@x.com" "p") danglingWorld
      [("email", .str "d@x.com"), ("password", .str "p")] "d@x.com"
      (withRole seedRoles danglingRow) rfl rfl rfl).2.2.2.1 (.bool true) rfl rfl rfl rfl⟩

/-- Instance of C8: the record is returned as stored, digest included. -/
theorem handleGetUser_responses_witness :
    handleGetUser memDeps aliceWorld =
      (.ok (), { store := aliceWorld.store,
                 log := [.userFindByPk (.num 1), .roleFindByPk (.num 3),
                   .respond 200 (.value (.obj [("id", .num 1), ("name", .str "A"),
                     ("email", .str "a@b.com"), ("encryptedPassword", .str "$10$p"),
                     ("roleId", .num 3)]))],
                 user := aliceWorld.user }) :=
  (handleGetUser_responses memDeps aliceWorld (.num 1) aliceRow rfl rfl).2.2
    (.obj [("id", .num 3), ("name", .str "CUSTOMER")]) rfl rfl rfl

/-- Counterexample to C9 as stated: with no `CUSTOMER` role in the store the
`TypeError` does not escape `handleRegister`; the handler returns normally and
has passed the error to `next`. -/
theorem handleRegister_missing_role_calls_next :
    handleRegister memDeps (registerRequest "A" "a@x.com" "p") emptyWorld =
      (.ok (), { store := emptyWorld.store,
                 log := [
                   .userFindOne (emailQuery (.str "a@x.com")),
                   .roleFindOne customerRoleQuery,
                   .hashSync (.str "p") 10,
                   .next (some (typeError "Cannot read properties of null (reading 'id')"))],
                 user := .undefined }) :=
  rfl

/-- Instance of the amended C9 on the store without roles. -/
theorem handleRegister_missing_role_forwarded_witness :
    ∃ err, handleRegister memDeps (registerRequest "A" "a@x.com" "p") emptyWorld =
      (.ok (), { store := emptyWorld.store,
                 log := [] ++ [
                   .userFindOne (emailQuery (.str (memDeps.toLowerCase "a@x.com"))),
                   .roleFindOne customerRoleQuery,
                   .hashSync ((List.lookup "password"
                     [("name", .str "A"), ("email", .str "a@x.com"),
                       ("password", .str "p")]).getD .undefined) 10,
                   .next (some err)],
                 user := .undefined }) ∧
      (∀ digest, memDeps.hashSync ((List.lookup "password"
          [("name", JSVal.str "A"), ("email", JSVal.str "a@x.com"),
            ("password", JSVal.str "p")]).getD .undefined) 10 = .ok digest →
        err = typeError "Cannot read properties of null (reading 'id')") :=
  handleRegister_missing_role_forwarded memDeps (registerRequest "A" "a@x.com" "p") emptyWorld
    [("name", .str "A"), ("email", .str "a@x.com"), ("password", .str "p")] "a@x.com" .null
    rfl rfl rfl rfl rfl

/-- C10 at a failing input: the user lookup of `handleGetUser` rejects (the
database is unreachable).  The handler rejects with that error; `next` is not
called. -/
theorem handleGetUser_rejection_escapes_witness :
    offlineDeps.userFindByPk (.num 1) aliceWorld.store = .error connectionError ∧
    handleGetUser offlineDeps aliceWorld =
      (.error connectionError,
        { store := aliceWorld.store, log := [.userFindByPk (.num 1)],
          user := aliceWorld.user }) :=
  ⟨rfl, (handleGetUser_rejection_escapes offlineDeps aliceWorld (.num 1) connectionError
    rfl).1 rfl⟩

/-- Instance of C7 with the in-memory codec: the stored row carries
`encryptedPassword` and `roleId`, the decoded claims do not. -/
theorem token_round_trip_witness :
    ∃ token,
      (createTokenFromUser memDeps aliceRow
        (.obj [("id", .num 3), ("name", .str "CUSTOMER")]) freshWorld).1 = .ok token ∧
      (decodeToken memDeps token (createTokenFromUser memDeps aliceRow
        (.obj [("id", .num 3), ("name", .str "CUSTOMER")]) freshWorld).2).1 =
        .ok (.obj [("id", .num 1), ("name", .str "A"), ("email", .str "a@b.com"),
          ("image", .undefined),
          ("role", .obj [("id", .num 3), ("name", .str "CUSTOMER")])]) ∧
      ∀ w' : World MemStore, (createTokenFromUser memDeps aliceRow
        (.obj [("id", .num 3), ("name", .str "CUSTOMER")]) w').1 = .ok token :=
  token_round_trip memDeps aliceRow (.obj [("id", .num 3), ("name", .str "CUSTOMER")])
    freshWorld rfl rfl (fun c _ => ⟨.obj [("signed", c)], rfl, rfl⟩)

/-- A row matching a `where` clause on a string email is a record. -/
theorem truthy_of_rowMatches_email {row : JSVal} {email : String}
    (h : rowMatches (.obj [("email", .str email)]) row = true) : row.truthy = true := by
  cases row <;> simp_all [rowMatches, getPropOpt, strictEq, JSVal.truthy]

/-- The in-memory store finds a created user again by its email. -/
theorem memDeps_finds_created (values : JSVal) (s : MemStore) (user : JSVal) (s' : MemStore)
    (email : String) (hcreate : memDeps.userCreate values s = (.ok user, s'))
    (hemail : getPropOpt values "email" = .str email) :
    ∃ found, memDeps.userFindOne (emailQuery (.str email)) s' = .ok found ∧
      found.truthy = true := by
  cases values with
  | obj fields =>
    simp only [memDeps, Prod.mk.injEq] at hcreate
    obtain ⟨-, hs'⟩ := hcreate
    subst hs'
    have hnew : rowMatches (.obj [("email", .str email)])
        (.obj (("id", .num (s.users.length + 1)) :: fields)) = true := by
      have hlookup : getPropOpt (.obj (("id", .num (s.users.length + 1)) :: fields)) "email"
          = .str email := by
        rw [← hemail]
        simp [getPropOpt, List.lookup]
      simp [rowMatches, hlookup, strictEq]
    refine ⟨_, rfl, ?_⟩
    show (findRow (.obj [("email", .str email)])
      (s.users ++ [.obj (("id", .num (s.users.length + 1)) :: fields)])).truthy = true
    unfold findRow
    rw [List.find?_append]
    cases hfind : s.users.find? (rowMatches (.obj [("email", .str email)])) with
    | some row =>
      simpa using truthy_of_rowMatches_email (List.find?_some hfind)
    | none =>
      simp [List.find?, hnew, JSVal.truthy]
  | undefined => simp [memDeps] at hcreate
  | null => simp [memDeps] at hcreate
  | bool b => simp [memDeps] at hcreate
  | num n => simp [memDeps] at hcreate
  | str t => simp [memDeps] at hcreate

/-- Instance of C5: after registering `A@B.com`, registering `a@b.com` is
refused with 422 and the store still holds the one user. -/
theorem handleRegister_duplicate_email_witness :
    (handleRegister memDeps (registerRequest "A" "A@B.com" "p") freshWorld).2.store =
      { users := [aliceRow], roles := seedRoles } ∧
    handleRegister memDeps (registerRequest "B" "a@b.com" "q")
        (handleRegister memDeps (registerRequest "A" "A@B.com" "p") freshWorld).2 =
      (.ok (), { store := (handleRegister memDeps
                   (registerRequest "A" "A@B.com" "p") freshWorld).2.store,
                 log := (handleRegister memDeps
                     (registerRequest "A" "A@B.com" "p") freshWorld).2.log ++ [
                   .userFindOne (emailQuery (.str (memDeps.toLowerCase "a@b.com"))),
                   .respond 422 (.error (memDeps.EmailAlreadyTakenError
                     (.str (memDeps.toLowerCase "a@b.com"))))],
                 user := (handleRegister memDeps
                   (registerRequest "A" "A@B.com" "p") freshWorld).2.user }) :=
  ⟨rfl, handleRegister_duplicate_email memDeps (registerRequest "A" "A@B.com" "p")
    (registerRequest "B" "a@b.com" "q") freshWorld
    [("name", .str "A"), ("email", .str "A@B.com"), ("password", .str "p")]
    [("name", .str "B"), ("email", .str "a@b.com"), ("password", .str "q")]
    "A@B.com" "a@b.com"
    (.value (.obj [("accessToken",
      .obj [("signed", .obj [("id", .num 1), ("name", .str "A"),
        ("email", .str "a@b.com"), ("image", .undefined),
        ("role", .obj [("id", .num 3), ("name", .str "CUSTOMER")])])])]))
    rfl rfl rfl rfl rfl memDeps_finds_created rfl⟩

end AuthenticationController
